import Mathlib

/-!
Shallow embedding of `src/server.py` of the comfyui-mcp-server repository,
together with proofs about the claims of its specification.

Python dictionaries are embedded as association lists (`List (String × α)`)
with first-match lookup; `d[k] = v` replaces the first binding of `k` in
place, or appends a fresh binding when `k` is absent, matching CPython's
insertion-ordered dict semantics.  Reading `d[k]` for an absent key raises
`KeyError`, embedded as the `PyError.keyError` value of an `Except` result.
-/

namespace ComfyUI

/-- Association-list lookup: first binding of `k`, mirroring Python `d[k]`
read (as an `Option` so callers can raise `KeyError` or use a default). -/
def alookup (l : List (String × α)) (k : String) : Option α :=
  match l with
  | [] => none
  | (k2, v) :: rest => if k2 = k then some v else alookup rest k

/-- Python `k in d`. -/
def amem (l : List (String × α)) (k : String) : Bool :=
  (alookup l k).isSome

/-- Python `d[k] = v`: replace the first binding of `k`, or append a new
binding when `k` is absent. -/
def aset (l : List (String × α)) (k : String) (v : α) : List (String × α) :=
  match l with
  | [] => [(k, v)]
  | (k2, v2) :: rest => if k2 = k then (k2, v) :: rest else (k2, v2) :: aset rest k v

/-- Values stored in a workflow node's `inputs` dict: numbers (width,
height, seeds) and strings (prompt text). -/
inductive JVal where
  | num (n : Nat)
  | str (s : String)
deriving DecidableEq, Repr

/-- A workflow node as far as the server touches it: its `inputs` dict.
(The other keys of a node object, such as `class_type`, are never read or
written by `server.py`.) -/
structure NodeDef where
  inputs : List (String × JVal)
deriving DecidableEq, Repr

/-- The parsed workflow JSON (`workflow_data`): node identifier → node. -/
def Workflow := List (String × NodeDef)
deriving DecidableEq

/-- The parsed YAML config (`config_data`) after startup processing: role
lists, the save node, and the aspect-ratio table (ratio → [width, height]). -/
structure Config where
  aspect_ratios : List (String × (Nat × Nat))
  save_image_node : String
  image_size_nodes : List String
  seed_nodes : List String
  prompt_nodes : List String
deriving DecidableEq, Repr

/-- Python exceptions that the embedded code can raise. -/
inductive PyError where
  | keyError (k : String)
  | oserror (msg : String)
deriving DecidableEq, Repr

/-- Embedding of Python `str(e)` as used in the handler's error message. -/
def pyErrStr : PyError → String
  | .keyError k => k
  | .oserror msg => msg

/-- The JSON keys named at lines 82–94 of `server.py`. -/
def inputs_key : String := "inputs"
def seed_key : String := "seed"
def noise_seed_key : String := "noise_seed"
def width_key : String := "width"
def height_key : String := "height"
def text_key : String := "text"

/-- Line 56: regex `[^a-zA-Z0-9_]` — a character is special iff it is not
an ASCII letter, digit or underscore. -/
def isSpecialChar (c : Char) : Bool :=
  !((97 ≤ c.toNat && c.toNat ≤ 122) ||   -- a-z
    (65 ≤ c.toNat && c.toNat ≤ 90)  ||   -- A-Z
    (48 ≤ c.toNat && c.toNat ≤ 57)  ||   -- 0-9
    c.toNat = 95)                        -- _

/-- Line 203: `re.sub(special_char_pattern, '-', title)` — the pattern
matches one character at a time, so the substitution maps each character
independently. -/
def re_sub_special (title : String) : String :=
  ⟨title.data.map (fun c => if isSpecialChar c then '-' else c)⟩

/-- Lines 59–70: mapping of aspect-ratio friendly name to aspect ratio. -/
def aspect_ratio_aliases : List (String × String) :=
  [("1:1", "1:1"), ("square", "1:1"),
   ("16:9", "16:9"), ("widest", "16:9"),
   ("9:16", "9:16"), ("tallest", "9:16"),
   ("4:3", "4:3"), ("wide", "4:3"),
   ("3:4", "3:4"), ("tall", "3:4")]

/-- Lines 73–79: default image dimensions used when the config file does
not define an aspect-ratio table. -/
def default_aspect_ratios : List (String × (Nat × Nat)) :=
  [("16:9", (1280, 720)), ("4:3", (1152, 864)), ("1:1", (1024, 1024)),
   ("3:4", (864, 1152)), ("9:16", (720, 1280))]

/-- CPython converts a big integer to a `float` by rounding it to the
nearest 53-significant-bit value (ties to even).  For `u < 2 ^ 53` the
conversion is exact. -/
def floatRound (u : Nat) : Nat :=
  if u < 2 ^ 53 then u
  else
    let k := Nat.log2 u + 1 - 53
    let q := u / 2 ^ k
    let r := u % 2 ^ k
    let q2 := if 2 * r > 2 ^ k || (2 * r = 2 ^ k && q % 2 = 1) then q + 1 else q
    q2 * 2 ^ k

/-- Lines 118–119: `int(uuid.uuid4().int % 1e10)`.  The UUID's 128-bit
integer `u` is first rounded to a float (53 significant bits); `% 1e10`
between two exactly-representable integral floats yields the mathematical
remainder, which is below `10 ^ 10 < 2 ^ 53` and hence exact; `int` then
leaves it unchanged. -/
def make_random_seed (u : Nat) : Nat :=
  floatRound u % 10 ^ 10

/-- The process's source of `uuid.uuid4().int` values: an abstract stream
of 128-bit integers together with a counter of how many have been drawn
so far.  Each call to `uuid.uuid4()` consumes the next stream element. -/
structure SeedGen where
  stream : Nat → Nat
  idx : Nat

/-- One call to `make_random_seed()` at lines 144/146: consume the next
UUID from the stream and reduce it. -/
def drawSeed (g : SeedGen) : Nat × SeedGen :=
  (make_random_seed (g.stream g.idx), ⟨g.stream, g.idx + 1⟩)

/-- The raw parsed YAML config before the aspect-ratio defaulting at lines
109–110: the `aspect_ratios` key may be absent (`none`) or present. -/
structure RawConfig where
  aspect_ratios : Option (List (String × (Nat × Nat)))
  save_image_node : String
  image_size_nodes : List String
  seed_nodes : List String
  prompt_nodes : List String

/-- Lines 109–110: if `aspect_ratios` is absent or falsy (empty), use the
default table. -/
def startupConfig (config_data : RawConfig) : Config :=
  { aspect_ratios :=
      match config_data.aspect_ratios with
      | none => default_aspect_ratios
      | some [] => default_aspect_ratios
      | some t => t
    save_image_node := config_data.save_image_node
    image_size_nodes := config_data.image_size_nodes
    seed_nodes := config_data.seed_nodes
    prompt_nodes := config_data.prompt_nodes }

/-- Lines 113–116: the `comfyui_workflow` dictionary holding both the
workflow graph and the config.  This is the process-wide shared state. -/
structure ComfyuiWorkflow where
  workflow : Workflow
  config : Config

/-- Lines 96–116: startup loading.  Beyond parsing (whose results are the
arguments here) the only processing is the aspect-ratio defaulting; no
validation of the role lists against the workflow graph is performed. -/
def startupLoad (workflow_data : Workflow) (config_data : RawConfig) : ComfyuiWorkflow :=
  ⟨workflow_data, startupConfig config_data⟩

/-- Lines 125–131: alias normalisation followed by the alias-table lookup.
An alias not in `aspect_ratio_aliases` is silently replaced by `square`
before the lookup, so the lookup itself cannot fail (`square` is a key). -/
def canonicalRatio (ratioAlias : String) : Option String :=
  let a := if amem aspect_ratio_aliases ratioAlias then ratioAlias else "square"
  alookup aspect_ratio_aliases a

/-- Line 131: `width, height = comfyui_workflow[config][aspect_ratios][aspect_ratio]`,
after the normalisation of lines 125–129; a ratio missing from the config
table raises `KeyError`. -/
def getImageSize (table : List (String × (Nat × Nat))) (ratioAlias : String) :
    Except PyError (Nat × Nat) :=
  match canonicalRatio ratioAlias with
  | none => .error (.keyError ratioAlias)
  | some r =>
    match alookup table r with
    | none => .error (.keyError r)
    | some wh => .ok wh

/-- Lines 137–140: for one image-size node, write `width`/`height` into its
inputs when those keys are present.  Indexing a node id absent from the
graph raises `KeyError`. -/
def setSizeNode (wf : Workflow) (nid : String) (w h : Nat) : Except PyError Workflow :=
  match alookup wf nid with
  | none => .error (.keyError nid)
  | some node =>
    let ins := node.inputs
    let ins := if amem ins width_key then aset ins width_key (.num w) else ins
    let ins := if amem ins height_key then aset ins height_key (.num h) else ins
    .ok (aset wf nid ⟨ins⟩)

/-- Lines 136–140: the loop over `image_size_nodes`. -/
def injectSizes (wf : Workflow) (nids : List String) (w h : Nat) : Except PyError Workflow :=
  match nids with
  | [] => .ok wf
  | nid :: rest =>
    match setSizeNode wf nid w h with
    | .error e => .error e
    | .ok wf2 => injectSizes wf2 rest w h

/-- Lines 143–146: for one seed node, draw a fresh seed for the `seed`
field when present, then another fresh seed for the `noise_seed` field
when present.  Each populated field consumes its own UUID draw. -/
def setSeedNode (wf : Workflow) (nid : String) (g : SeedGen) :
    Except PyError (Workflow × SeedGen) :=
  match alookup wf nid with
  | none => .error (.keyError nid)
  | some node =>
    let ins := node.inputs
    let sg :=
      if amem ins seed_key then
        let (s, g2) := drawSeed g
        (aset ins seed_key (.num s), g2)
      else (ins, g)
    let sg2 :=
      if amem sg.1 noise_seed_key then
        let (s, g2) := drawSeed sg.2
        (aset sg.1 noise_seed_key (.num s), g2)
      else sg
    .ok (aset wf nid ⟨sg2.1⟩, sg2.2)

/-- Lines 142–146: the loop over `seed_nodes`. -/
def injectSeeds (wf : Workflow) (nids : List String) (g : SeedGen) :
    Except PyError (Workflow × SeedGen) :=
  match nids with
  | [] => .ok (wf, g)
  | nid :: rest =>
    match setSeedNode wf nid g with
    | .error e => .error e
    | .ok (wf2, g2) => injectSeeds wf2 rest g2

/-- Lines 148–149: write the prompt text into one prompt node's `text`
input (a plain dict assignment, inserting the key when absent). -/
def setPromptNode (wf : Workflow) (nid : String) (p : String) : Except PyError Workflow :=
  match alookup wf nid with
  | none => .error (.keyError nid)
  | some node => .ok (aset wf nid ⟨aset node.inputs text_key (.str p)⟩)

/-- Lines 148–149: the loop over `prompt_nodes`. -/
def injectPrompts (wf : Workflow) (nids : List String) (p : String) : Except PyError Workflow :=
  match nids with
  | [] => .ok wf
  | nid :: rest =>
    match setPromptNode wf nid p with
    | .error e => .error e
    | .ok wf2 => injectPrompts wf2 rest p

/-- Lines 124–149: the parameter-binding phase of `comfyui_generate_image`.
Line 134 binds `prompt_structure = comfyui_workflow[workflow_key]` — a
reference, not a copy — so every write of lines 136–149 lands in the shared
`comfyui_workflow` dictionary.  The embedding makes that aliasing explicit:
the returned `ComfyuiWorkflow` is the new value of the shared state, and
its `workflow` field is also exactly the graph submitted at line 170. -/
def bindParameters (cw : ComfyuiWorkflow) (p ratioAlias : String) (g : SeedGen) :
    Except PyError (ComfyuiWorkflow × SeedGen) :=
  match getImageSize cw.config.aspect_ratios ratioAlias with
  | .error e => .error e
  | .ok (w, h) =>
    match injectSizes cw.workflow cw.config.image_size_nodes w h with
    | .error e => .error e
    | .ok ps =>
      match injectSeeds ps cw.config.seed_nodes g with
      | .error e => .error e
      | .ok (ps2, g2) =>
        match injectPrompts ps2 cw.config.prompt_nodes p with
        | .error e => .error e
        | .ok ps3 => .ok (⟨ps3, cw.config⟩, g2)

/-- Lines 174–183: the polling loop.  `hist i` is the engine's answer to
the `i`-th `get_history` call, restricted to what the loop reads: `none`
when the prompt id is not yet a key of the history map, `some b` when it is
present with `data.get('is_processing', False) = b`.  The loop breaks only
on `some false`; in every other case it sleeps one time unit and
re-queries.  The result is `(exit index, number of sleeps performed)`;
`fuel` bounds the recursion (the source loop is unbounded, so `none` means
the loop was still running after `fuel` queries). -/
def pollLoop (hist : Nat → Option Bool) : Nat → Nat → Nat → Option (Nat × Nat)
  | 0, _, _ => none
  | fuel + 1, i, sleeps =>
    match hist i with
    | some true => pollLoop hist fuel (i + 1) (sleeps + 1)
    | some false => some (i, sleeps)
    | none => pollLoop hist fuel (i + 1) (sleeps + 1)

/-- An image descriptor `{filename, subfolder, type}` as returned inside a
history payload's `outputs` lists. -/
structure ImgDesc where
  filename : String
  subfolder : String
  ftype : String

/-- Lines 186–195: build `output_images` from the terminal history's
`outputs` map.  Each node's entry is `none` when the node output has no
`images` key (yielding an empty list) and `some descs` otherwise; `view`
is the engine's artifact endpoint (line 159–163), returning raw bytes
(modelled as `Nat`). -/
def buildOutputImages (outs : List (String × Option (List ImgDesc)))
    (view : ImgDesc → Nat) : List (String × List Nat) :=
  outs.map (fun p => (p.1, match p.2 with
    | none => []
    | some descs => descs.map view))

/-- Line 212: the failure result when the designated save node produced no
image — the code's representation of the spec's `NoOutputError`. -/
def NoOutputResult : Option String × String :=
  (none, "Unspecified error. No image generated.")

/-- Lines 197–212: select the save node's image list (with `[]` as the
dict-get default), and on success compose the sanitized filename and the
markdown reference; otherwise produce `NoOutputResult`.  `now` is the
formatted timestamp of line 204, `wfName` is `comfyui_workflow_name` and
`baseUrl` is `image_app_base_url`.  (The PIL decode and disk write of
lines 202/208 are I/O whose failures raise exceptions; exceptions are
handled abstractly at the adapter boundary.) -/
def retrievePhase (cw : ComfyuiWorkflow) (outs : List (String × Option (List ImgDesc)))
    (view : ImgDesc → Nat) (title now wfName baseUrl : String) : Option String × String :=
  let output_images := buildOutputImages outs view
  let images := (alookup output_images cw.config.save_image_node).getD []
  match images with
  | [] => NoOutputResult
  | _ :: _ =>
    let image_title := re_sub_special title
    let image_filename := now ++ "_" ++ image_title ++ "_" ++ wfName ++ ".png"
    (some image_filename, "![" ++ title ++ "](" ++ baseUrl ++ "/" ++ image_filename ++ ")")

/-- A `types.TextContent(type="text", text=s)` protocol result block. -/
inductive TextContent where
  | text (s : String)
deriving DecidableEq, Repr

/-- Lines 245–276: the MCP tool-call handler.  The pipeline's outcome is
the `Except` result of the worker running `comfyui_generate_image`
(lines 255–257): an exception anywhere in the pipeline is its `.error`
case.  `sidecarWrite` is the outcome of the `.txt` prompt-file write of
lines 261–264; it is consulted only when `image_filename` is truthy, and
it runs INSIDE the same `try`, so its failure is caught by the same
`except` clause at line 267. -/
def handle_call_tool (name : String)
    (pipeline : Except PyError (Option String × String))
    (sidecarWrite : Except PyError Unit) : List TextContent :=
  if name = "image_generate" then
    match pipeline with
    | .error e => [.text ("Error generating image: " ++ pyErrStr e)]
    | .ok (image_filename, markdown) =>
      match image_filename with
      | some _ =>
        match sidecarWrite with
        | .ok _ => [.text markdown]
        | .error e => [.text ("Error generating image: " ++ pyErrStr e)]
      | none => [.text markdown]
  else
    [.text ("Unknown tool: " ++ name)]

/-! ### Association-list lemmas -/

theorem alookup_aset_self (l : List (String × α)) (k : String) (v : α) :
    alookup (aset l k v) k = some v := by
  induction l with
  | nil => simp [aset, alookup]
  | cons hd tl ih =>
    obtain ⟨k2, v2⟩ := hd
    by_cases h : k2 = k
    · simp [aset, alookup, h]
    · simp [aset, alookup, h, ih]

theorem alookup_aset_ne (l : List (String × α)) (k k2 : String) (v : α) (h : k ≠ k2) :
    alookup (aset l k v) k2 = alookup l k2 := by
  induction l with
  | nil => simp [aset, alookup, h]
  | cons hd tl ih =>
    obtain ⟨k3, v3⟩ := hd
    by_cases h3 : k3 = k
    · subst h3
      simp [aset, alookup, h]
    · simp [aset, alookup, h3, ih]

theorem alookup_of_amem_false (l : List (String × α)) (k : String)
    (h : amem l k = false) : alookup l k = none := by
  unfold amem at h
  cases he : alookup l k with
  | none => rfl
  | some v => rw [he] at h; simp at h

/-! ### Claims about the Tool Invocation Adapter -/

/-- C10: for every tool call whose tool name is not `image_generate`, the
handler returns the single text content block `Unknown tool: <name>`,
whatever the (abstracted) argument-dependent outcomes are — it neither
raises nor produces an empty result. -/
theorem C10_unknown_tool (name : String)
    (pl : Except PyError (Option String × String)) (sc : Except PyError Unit)
    (h : name ≠ "image_generate") :
    handle_call_tool name pl sc = [.text ("Unknown tool: " ++ name)] := by
  simp [handle_call_tool, h]

theorem C10_unknown_tool_witness :
    ("foo" : String) ≠ "image_generate" ∧
    handle_call_tool "foo" (.ok (none, "")) (.ok ())
      = [.text ("Unknown tool: " ++ "foo")] :=
  ⟨by decide, C10_unknown_tool "foo" (.ok (none, "")) (.ok ()) (by decide)⟩

/-- C9: every pipeline error reaching the adapter is converted to the
descriptive text result `Error generating image: <e>` rather than being
re-raised, and on every input whatsoever the handler returns a single text
block (it is total — no invocation can crash the serving process through
it). -/
theorem C9_error_propagation :
    ∀ (e : PyError) (sc : Except PyError Unit) (name : String)
      (pl : Except PyError (Option String × String)),
    handle_call_tool "image_generate" (.error e) sc
      = [.text ("Error generating image: " ++ pyErrStr e)] ∧
    ∃ s, handle_call_tool name pl sc = [.text s] := by
  intro e sc name pl
  constructor
  · simp [handle_call_tool]
  · unfold handle_call_tool
    by_cases h : name = "image_generate" <;> simp [h]
    cases pl with
    | error e2 => exact ⟨_, rfl⟩
    | ok r =>
      obtain ⟨fn, md⟩ := r
      cases fn with
      | none => exact ⟨md, rfl⟩
      | some f =>
        cases sc with
        | error e3 => exact ⟨_, rfl⟩
        | ok u => exact ⟨md, rfl⟩

/-- C3 counterexample: with a successful pipeline result (image written,
filename `img.png`, rendered reference `ref`) and a failing sidecar write,
the handler returns the error text, not the rendered reference — the
sidecar failure does change the overall outcome. -/
theorem C3_sidecar_counterexample :
    handle_call_tool "image_generate" (.ok (some "img.png", "ref"))
        (.error (.oserror "disk full"))
      = [.text "Error generating image: disk full"] ∧
    [TextContent.text "Error generating image: disk full"]
      ≠ [TextContent.text "ref"] :=
  ⟨rfl, by decide⟩

/-- C3 amended: the sidecar write happens inside the same `try` block, so
whenever it fails after a successful image write the call returns the
textual error `Error generating image: <e>` instead of the rendered
reference; the failure is escalated into the call's result (though the
process itself does not crash). -/
theorem C3_sidecar_amended (fn markdown : String) (e : PyError) :
    handle_call_tool "image_generate" (.ok (some fn, markdown)) (.error e)
      = [.text ("Error generating image: " ++ pyErrStr e)] := by
  simp [handle_call_tool]

/-! ### Claims about sanitization -/

/-- C6 counterexample: the title `Sun & Moon!!` (twelve characters, five of
them special) sanitizes to `Sun---Moon--`, not to the eleven-character
`Sun--Moon--` stated by the claim. -/
theorem C6_sanitize_counterexample :
    re_sub_special "Sun & Moon!!" ≠ "Sun--Moon--" := by decide

/-- C6 amended: sanitization replaces every character outside
`[A-Za-z0-9_]` with `-`, one replacement per input character (the output
has the same length and each position is the pointwise image of the input
position), leaving allowed characters unchanged; in particular
`Sun & Moon!!` becomes `Sun---Moon--`. -/
theorem C6_sanitize_amended : ∀ (title : String),
    (re_sub_special title).length = title.length ∧
    (∀ i : Nat, (re_sub_special title).data[i]?
        = (title.data[i]?).map (fun c => if isSpecialChar c then '-' else c)) ∧
    re_sub_special "Sun & Moon!!" = "Sun---Moon--" := by
  intro t
  refine ⟨?_, ?_, by decide⟩
  · exact List.length_map _ _
  · intro i
    simp [re_sub_special, List.getElem?_map]

/-! ### Claims about the Aspect Ratio Resolver -/

/-- C5: an alias present in the alias table resolves to its canonical
ratio and yields exactly that ratio's configured pair; an alias absent
from the table (including the empty string) silently yields the square
(`1:1`) pair, with no error. -/
theorem C5_resolver : ∀ (table : List (String × (Nat × Nat))) (a r : String) (w h : Nat),
    (alookup aspect_ratio_aliases a = some r →
      alookup table r = some (w, h) → getImageSize table a = .ok (w, h)) ∧
    (alookup aspect_ratio_aliases a = none →
      alookup table "1:1" = some (w, h) → getImageSize table a = .ok (w, h)) := by
  intro table a r w h
  have hs : alookup aspect_ratio_aliases "square" = some "1:1" := by decide
  constructor
  · intro ha ht
    simp [getImageSize, canonicalRatio, amem, ha, ht]
  · intro ha ht
    simp [getImageSize, canonicalRatio, amem, ha, hs, ht]

theorem C5_resolver_witness :
    (alookup aspect_ratio_aliases "tall" = some "3:4" ∧
     alookup default_aspect_ratios "3:4" = some (864, 1152) ∧
     getImageSize default_aspect_ratios "tall" = .ok (864, 1152)) ∧
    (alookup aspect_ratio_aliases "" = none ∧
     alookup default_aspect_ratios "1:1" = some (1024, 1024) ∧
     getImageSize default_aspect_ratios "" = .ok (1024, 1024)) :=
  ⟨⟨by decide, by decide,
    (C5_resolver default_aspect_ratios "tall" "3:4" 864 1152).1 (by decide) (by decide)⟩,
   ⟨by decide, by decide,
    (C5_resolver default_aspect_ratios "" "1:1" 1024 1024).2 (by decide) (by decide)⟩⟩

/-! ### Claims about the Artifact Retriever -/

theorem alookup_buildOutputImages (outs : List (String × Option (List ImgDesc)))
    (view : ImgDesc → Nat) (k : String) :
    alookup (buildOutputImages outs view) k
      = (alookup outs k).map (fun o => match o with
          | none => []
          | some descs => descs.map view) := by
  induction outs with
  | nil => simp [buildOutputImages, alookup]
  | cons hd tl ih =>
    obtain ⟨k2, v2⟩ := hd
    by_cases h : k2 = k
    · simp [buildOutputImages, alookup, h]
    · simp only [buildOutputImages, List.map_cons, alookup, h, if_false]
      simpa [buildOutputImages] using ih

/-- C4: whenever the terminal history's outputs give the designated save
node no image list (the node id is absent, has no `images` key, or has an
empty list), the retrieval phase produces the no-output failure result —
regardless of what images any other node produced (no fallback) — and the
adapter surfaces it as a single text block, not an exception. -/
theorem C4_no_output :
    ∀ (cw : ComfyuiWorkflow) (outs : List (String × Option (List ImgDesc)))
      (view : ImgDesc → Nat) (title now wfName baseUrl : String)
      (sc : Except PyError Unit),
    (alookup outs cw.config.save_image_node = none ∨
     alookup outs cw.config.save_image_node = some none ∨
     alookup outs cw.config.save_image_node = some (some [])) →
    retrievePhase cw outs view title now wfName baseUrl = NoOutputResult ∧
    handle_call_tool "image_generate"
        (.ok (retrievePhase cw outs view title now wfName baseUrl)) sc
      = [.text "Unspecified error. No image generated."] := by
  intro cw outs view title now wfName baseUrl sc h
  have hr : retrievePhase cw outs view title now wfName baseUrl = NoOutputResult := by
    rcases h with h | h | h <;>
      simp [retrievePhase, alookup_buildOutputImages, h]
  refine ⟨hr, ?_⟩
  rw [hr]
  simp [handle_call_tool, NoOutputResult]

def cwD : ComfyuiWorkflow := ⟨[], ⟨default_aspect_ratios, "9", [], [], []⟩⟩
def outsD : List (String × Option (List ImgDesc)) := [("7", some [⟨"f", "s", "t"⟩])]

theorem C4_no_output_witness :
    alookup outsD cwD.config.save_image_node = none ∧
    retrievePhase cwD outsD (fun _ => 0) "t" "now" "wf" "url" = NoOutputResult ∧
    handle_call_tool "image_generate"
        (.ok (retrievePhase cwD outsD (fun _ => 0) "t" "now" "wf" "url")) (.ok ())
      = [.text "Unspecified error. No image generated."] := by
  have h := C4_no_output cwD outsD (fun _ => 0) "t" "now" "wf" "url" (.ok ()) (Or.inl rfl)
  exact ⟨rfl, h.1, h.2⟩

/-! ### Claims about the Completion Poller -/

theorem pollLoop_spec (hist : Nat → Option Bool) :
    ∀ (fuel i s0 k s : Nat), pollLoop hist fuel i s0 = some (k, s) →
      i ≤ k ∧ hist k = some false ∧
      (∀ j, i ≤ j → j < k → hist j ≠ some false) ∧ s = s0 + (k - i) := by
  intro fuel
  induction fuel with
  | zero => intro i s0 k s h; simp [pollLoop] at h
  | succ n ih =>
    intro i s0 k s h
    unfold pollLoop at h
    cases hh : hist i with
    | none =>
      rw [hh] at h
      obtain ⟨h1, h2, h3, h4⟩ := ih (i + 1) (s0 + 1) k s h
      refine ⟨by omega, h2, ?_, by omega⟩
      intro j hij hjk
      by_cases hji : j = i
      · subst hji; rw [hh]; simp
      · exact h3 j (by omega) hjk
    | some b =>
      cases b with
      | true =>
        rw [hh] at h
        obtain ⟨h1, h2, h3, h4⟩ := ih (i + 1) (s0 + 1) k s h
        refine ⟨by omega, h2, ?_, by omega⟩
        intro j hij hjk
        by_cases hji : j = i
        · subst hji; rw [hh]; simp
        · exact h3 j (by omega) hjk
      | false =>
        rw [hh] at h
        simp only [Option.some.injEq, Prod.mk.injEq] at h
        obtain ⟨hk, hs⟩ := h
        subst hk; subst hs
        exact ⟨le_refl i, hh, fun j hij hjk => absurd hjk (by omega), by omega⟩

/-- C8: when the polling loop exits (at query index k, after s sleeps), the
history at that query reports the job present and no longer processing; no
earlier query reported it terminal (the loop never exits while the status
is non-terminal, and an id still absent from the history counts as
pending); and the loop slept exactly once per pending iteration (s = k),
never busy-spinning. -/
theorem C8_poller (hist : Nat → Option Bool) (fuel k s : Nat)
    (h : pollLoop hist fuel 0 0 = some (k, s)) :
    hist k = some false ∧ (∀ j, j < k → hist j ≠ some false) ∧ s = k := by
  obtain ⟨h1, h2, h3, h4⟩ := pollLoop_spec hist fuel 0 0 k s h
  exact ⟨h2, fun j hj => h3 j (Nat.zero_le j) hj, by omega⟩

def histW : Nat → Option Bool := fun i =>
  if i = 0 then none else if i = 1 then some true else some false

theorem C8_poller_witness :
    pollLoop histW 5 0 0 = some (2, 2) ∧
    (histW 2 = some false ∧ (∀ j, j < 2 → histW j ≠ some false) ∧ 2 = 2) :=
  ⟨rfl, C8_poller histW 5 2 2 rfl⟩

/-! ### Claims about seed generation -/

/-- Structure of one successful `setSeedNode` step: the targeted node
existed, the UUID stream is left unchanged with a non-decreasing counter,
the result rewrites only that node, and when the node has a `seed` input
it receives the reduction of the UUID drawn at the current counter, after
which the counter has strictly advanced past that draw. -/
theorem setSeedNode_ok (wf : Workflow) (nid : String) (g : SeedGen)
    (wf2 : Workflow) (g2 : SeedGen)
    (h : setSeedNode wf nid g = .ok (wf2, g2)) :
    ∃ node, alookup wf nid = some node ∧
      g2.stream = g.stream ∧ g.idx ≤ g2.idx ∧
      ∃ ins2, wf2 = aset wf nid ⟨ins2⟩ ∧
        (amem node.inputs seed_key = true →
          alookup ins2 seed_key
            = some (.num (make_random_seed (g.stream g.idx))) ∧
          g.idx + 1 ≤ g2.idx) := by
  unfold setSeedNode at h
  cases hl : alookup wf nid with
  | none => rw [hl] at h; simp at h
  | some node =>
    rw [hl] at h
    dsimp only at h
    refine ⟨node, rfl, ?_⟩
    cases hseed : amem node.inputs seed_key with
    | true =>
      cases hnz : amem (aset node.inputs seed_key
          (JVal.num (make_random_seed (g.stream g.idx)))) noise_seed_key with
      | true =>
        simp only [hseed, hnz, drawSeed, if_true] at h
        simp only [Except.ok.injEq, Prod.mk.injEq] at h
        obtain ⟨hwf2, hg2⟩ := h
        subst hwf2; subst hg2
        refine ⟨rfl, by dsimp only; omega, _, rfl, fun _ => ⟨?_, by dsimp only; omega⟩⟩
        rw [alookup_aset_ne _ _ _ _ (by decide : noise_seed_key ≠ seed_key)]
        exact alookup_aset_self _ _ _
      | false =>
        simp only [hseed, hnz, drawSeed, if_true, Bool.false_eq_true, if_false] at h
        simp only [Except.ok.injEq, Prod.mk.injEq] at h
        obtain ⟨hwf2, hg2⟩ := h
        subst hwf2; subst hg2
        exact ⟨rfl, by dsimp only; omega, _, rfl,
          fun _ => ⟨alookup_aset_self _ _ _, by dsimp only; omega⟩⟩
    | false =>
      cases hnz : amem node.inputs noise_seed_key with
      | true =>
        simp only [hseed, hnz, drawSeed, Bool.false_eq_true, if_false, if_true] at h
        simp only [Except.ok.injEq, Prod.mk.injEq] at h
        obtain ⟨hwf2, hg2⟩ := h
        subst hwf2; subst hg2
        refine ⟨rfl, by dsimp only; omega, _, rfl, fun hx => ?_⟩
        simp at hx
      | false =>
        simp only [hseed, hnz, drawSeed, Bool.false_eq_true, if_false] at h
        simp only [Except.ok.injEq, Prod.mk.injEq] at h
        obtain ⟨hwf2, hg2⟩ := h
        subst hwf2; subst hg2
        refine ⟨rfl, le_refl _, _, rfl, fun hx => ?_⟩
        simp at hx

/-- Unfolding of one iteration of the `seed_nodes` loop. -/
theorem injectSeeds_cons (nid : String) (rest : List String) (wf : Workflow)
    (g : SeedGen) (wf2 : Workflow) (g2 : SeedGen)
    (h : injectSeeds wf (nid :: rest) g = .ok (wf2, g2)) :
    ∃ wfm gm, setSeedNode wf nid g = .ok (wfm, gm) ∧
      injectSeeds wfm rest gm = .ok (wf2, g2) := by
  unfold injectSeeds at h
  cases hs : setSeedNode wf nid g with
  | error e => rw [hs] at h; simp at h
  | ok p =>
    obtain ⟨wfm, gm⟩ := p
    rw [hs] at h
    exact ⟨wfm, gm, rfl, h⟩

/-- The `seed_nodes` loop over a concatenation splits into the loop over
the prefix followed by the loop over the suffix. -/
theorem injectSeeds_decomp (xs ys : List String) :
    ∀ (wf : Workflow) (g : SeedGen) (wf2 : Workflow) (g2 : SeedGen),
    injectSeeds wf (xs ++ ys) g = .ok (wf2, g2) →
    ∃ wfm gm, injectSeeds wf xs g = .ok (wfm, gm) ∧
      injectSeeds wfm ys gm = .ok (wf2, g2) := by
  induction xs with
  | nil => intro wf g wf2 g2 h; exact ⟨wf, g, rfl, h⟩
  | cons x xs ih =>
    intro wf g wf2 g2 h
    obtain ⟨wfm1, gm1, hset, hrest⟩ := injectSeeds_cons x (xs ++ ys) wf g wf2 g2 h
    obtain ⟨wfm, gm, h1, h2⟩ := ih wfm1 gm1 wf2 g2 hrest
    refine ⟨wfm, gm, ?_, h2⟩
    unfold injectSeeds
    rw [hset]
    exact h1

/-- The `seed_nodes` loop never changes the UUID stream and never moves
the draw counter backwards. -/
theorem injectSeeds_stream_mono (nids : List String) :
    ∀ (wf : Workflow) (g : SeedGen) (wf2 : Workflow) (g2 : SeedGen),
    injectSeeds wf nids g = .ok (wf2, g2) →
    g2.stream = g.stream ∧ g.idx ≤ g2.idx := by
  induction nids with
  | nil =>
    intro wf g wf2 g2 h
    simp only [injectSeeds, Except.ok.injEq, Prod.mk.injEq] at h
    obtain ⟨_, hg⟩ := h
    subst hg
    exact ⟨rfl, le_refl _⟩
  | cons x xs ih =>
    intro wf g wf2 g2 h
    obtain ⟨wfm, gm, hset, hrest⟩ := injectSeeds_cons x xs wf g wf2 g2 h
    obtain ⟨node, _, hstream, hidx, _⟩ := setSeedNode_ok wf x g wfm gm hset
    obtain ⟨hstream2, hidx2⟩ := ih wfm gm wf2 g2 hrest
    exact ⟨hstream2.trans hstream, le_trans hidx hidx2⟩

/-- The `seed_nodes` loop leaves every node not named in its list
untouched. -/
theorem injectSeeds_other (nids : List String) :
    ∀ (wf : Workflow) (g : SeedGen) (wf2 : Workflow) (g2 : SeedGen) (nid : String),
    injectSeeds wf nids g = .ok (wf2, g2) → nid ∉ nids →
    alookup wf2 nid = alookup wf nid := by
  induction nids with
  | nil =>
    intro wf g wf2 g2 nid h _
    simp only [injectSeeds, Except.ok.injEq, Prod.mk.injEq] at h
    obtain ⟨hw, _⟩ := h
    rw [← hw]
  | cons x xs ih =>
    intro wf g wf2 g2 nid h hmem
    obtain ⟨wfm, gm, hset, hrest⟩ := injectSeeds_cons x xs wf g wf2 g2 h
    have hx : x ≠ nid := fun he => hmem (he ▸ List.mem_cons_self x xs)
    have h1 : alookup wfm nid = alookup wf nid := by
      obtain ⟨node, _, _, _, ins2, hwf2, _⟩ := setSeedNode_ok wf x g wfm gm hset
      rw [hwf2]
      exact alookup_aset_ne _ _ _ _ hx
    have h2 := ih wfm gm wf2 g2 nid hrest (fun hm => hmem (List.mem_cons_of_mem _ hm))
    rw [h2, h1]

/-- C7: every value produced by `make_random_seed` is a natural number
strictly below `10 ^ 10` (the reduction of a freshly drawn UUID); when a
seed node carries both a `seed` and a `noise_seed` input, the two fields
receive the reductions of two distinct, consecutively drawn UUIDs (stream
positions `idx` and `idx + 1`) — never a shared draw — after which the
invocation's UUID counter has advanced past both; and when one
invocation's `seed_nodes` loop populates two distinct seed-bearing nodes,
each node's `seed` receives the reduction of a UUID drawn at its own
stream position, the earlier node's position strictly below the later
node's — the nodes never share a draw. -/
theorem C7_seeds :
    (∀ u : Nat, make_random_seed u < 10 ^ 10) ∧
    (∀ (wf : Workflow) (nid : String) (g : SeedGen) (node : NodeDef)
       (wf2 : Workflow) (g2 : SeedGen),
      alookup wf nid = some node →
      amem node.inputs seed_key = true →
      amem node.inputs noise_seed_key = true →
      setSeedNode wf nid g = .ok (wf2, g2) →
      (∃ n2, alookup wf2 nid = some n2 ∧
        alookup n2.inputs seed_key
          = some (.num (make_random_seed (g.stream g.idx))) ∧
        alookup n2.inputs noise_seed_key
          = some (.num (make_random_seed (g.stream (g.idx + 1))))) ∧
      g2.idx = g.idx + 2) ∧
    (∀ (l1 l2 l3 : List String) (nid1 nid2 : String) (wf wf2 : Workflow)
       (g g2 : SeedGen) (n1 n2 : NodeDef),
      injectSeeds wf (l1 ++ nid1 :: (l2 ++ nid2 :: l3)) g = .ok (wf2, g2) →
      nid1 ∉ l1 → nid1 ∉ l2 → nid1 ∉ l3 → nid1 ≠ nid2 →
      nid2 ∉ l1 → nid2 ∉ l2 → nid2 ∉ l3 →
      alookup wf nid1 = some n1 → amem n1.inputs seed_key = true →
      alookup wf nid2 = some n2 → amem n2.inputs seed_key = true →
      ∃ i1 i2, i1 < i2 ∧
        (∃ m1, alookup wf2 nid1 = some m1 ∧
          alookup m1.inputs seed_key
            = some (.num (make_random_seed (g.stream i1)))) ∧
        (∃ m2, alookup wf2 nid2 = some m2 ∧
          alookup m2.inputs seed_key
            = some (.num (make_random_seed (g.stream i2))))) := by
  refine ⟨?_, ?_, ?_⟩
  · intro u
    exact Nat.mod_lt _ (by norm_num)
  · intro wf nid g node wf2 g2 hlook hseed hnoise hrun
    have hne : seed_key ≠ noise_seed_key := by decide
    have hnoise2 : amem (aset node.inputs seed_key
        (JVal.num (make_random_seed (g.stream g.idx)))) noise_seed_key = true := by
      unfold amem at hnoise ⊢
      rw [alookup_aset_ne _ _ _ _ hne]
      exact hnoise
    unfold setSeedNode at hrun
    rw [hlook] at hrun
    simp only [hseed, hnoise2, drawSeed, if_true] at hrun
    simp only [Except.ok.injEq, Prod.mk.injEq] at hrun
    obtain ⟨hwf2, hg2⟩ := hrun
    subst hwf2
    constructor
    · refine ⟨_, alookup_aset_self wf nid _, ?_, ?_⟩
      · dsimp only
        rw [alookup_aset_ne _ _ _ _ (Ne.symm hne)]
        exact alookup_aset_self _ _ _
      · dsimp only
        exact alookup_aset_self _ _ _
    · rw [← hg2]
  · intro l1 l2 l3 nid1 nid2 wf wf2 g g2 n1 n2 hrun h1a h1b h1c hne h2a h2b h2c hn1 hs1 hn2 hs2
    obtain ⟨wfa, ga, hA, hrest⟩ :=
      injectSeeds_decomp l1 (nid1 :: (l2 ++ nid2 :: l3)) wf g wf2 g2 hrun
    obtain ⟨wfb, gb, hB, hrest2⟩ :=
      injectSeeds_cons nid1 (l2 ++ nid2 :: l3) wfa ga wf2 g2 hrest
    obtain ⟨wfc, gc, hC, hrest3⟩ :=
      injectSeeds_decomp l2 (nid2 :: l3) wfb gb wf2 g2 hrest2
    obtain ⟨wfd, gd, hD, hE⟩ := injectSeeds_cons nid2 l3 wfc gc wf2 g2 hrest3
    obtain ⟨hsA, hiA⟩ := injectSeeds_stream_mono l1 wf g wfa ga hA
    have ha1 : alookup wfa nid1 = some n1 := by
      rw [injectSeeds_other l1 wf g wfa ga nid1 hA h1a]
      exact hn1
    obtain ⟨node1, hl1, hsB, hiB, ins1, hwfb, hw1imp⟩ := setSeedNode_ok wfa nid1 ga wfb gb hB
    have hnode1 : node1 = n1 := by
      rw [ha1] at hl1
      exact (Option.some.inj hl1).symm
    obtain ⟨hw1, hib1⟩ := hw1imp (by rw [hnode1]; exact hs1)
    have ha2 : alookup wfc nid2 = some n2 := by
      rw [injectSeeds_other l2 wfb gb wfc gc nid2 hC h2b]
      rw [hwfb, alookup_aset_ne _ _ _ _ hne]
      rw [injectSeeds_other l1 wf g wfa ga nid2 hA h2a]
      exact hn2
    obtain ⟨hsC, hiC⟩ := injectSeeds_stream_mono l2 wfb gb wfc gc hC
    obtain ⟨node2, hl2, hsD, hiD, ins2n, hwfd, hw2imp⟩ := setSeedNode_ok wfc nid2 gc wfd gd hD
    have hnode2 : node2 = n2 := by
      rw [ha2] at hl2
      exact (Option.some.inj hl2).symm
    obtain ⟨hw2, hib2⟩ := hw2imp (by rw [hnode2]; exact hs2)
    have hfinal1 : alookup wf2 nid1 = some ⟨ins1⟩ := by
      rw [injectSeeds_other l3 wfd gd wf2 g2 nid1 hE h1c]
      rw [hwfd, alookup_aset_ne _ _ _ _ (Ne.symm hne)]
      rw [injectSeeds_other l2 wfb gb wfc gc nid1 hC h1b]
      rw [hwfb]
      exact alookup_aset_self _ _ _
    have hfinal2 : alookup wf2 nid2 = some ⟨ins2n⟩ := by
      rw [injectSeeds_other l3 wfd gd wf2 g2 nid2 hE h2c]
      rw [hwfd]
      exact alookup_aset_self _ _ _
    refine ⟨ga.idx, gc.idx, by omega, ⟨⟨ins1⟩, hfinal1, ?_⟩, ⟨⟨ins2n⟩, hfinal2, ?_⟩⟩
    · rw [← hsA]
      exact hw1
    · rw [← ((hsC.trans hsB).trans hsA)]
      exact hw2

def wfS : Workflow := [("3", ⟨[(seed_key, .num 0), (noise_seed_key, .num 0)]⟩)]
def genS : SeedGen := ⟨fun i => i + 7, 0⟩
def wfS2 : Workflow :=
  [("3", ⟨[(seed_key, .num (make_random_seed 7)), (noise_seed_key, .num (make_random_seed 8))]⟩)]
def genS2 : SeedGen := ⟨fun i => i + 7, 2⟩
def wfT : Workflow := [("a", ⟨[(seed_key, .num 0)]⟩), ("b", ⟨[(seed_key, .num 0)]⟩)]
def genT : SeedGen := ⟨fun i => i + 7, 0⟩
def wfT2 : Workflow :=
  [("a", ⟨[(seed_key, .num (make_random_seed 7))]⟩),
   ("b", ⟨[(seed_key, .num (make_random_seed 8))]⟩)]
def genT2 : SeedGen := ⟨fun i => i + 7, 2⟩

theorem C7_seeds_witness :
    make_random_seed 12345 < 10 ^ 10 ∧
    ((∃ n2, alookup wfS2 "3" = some n2 ∧
        alookup n2.inputs seed_key = some (.num (make_random_seed 7)) ∧
        alookup n2.inputs noise_seed_key = some (.num (make_random_seed 8))) ∧
      genS2.idx = 0 + 2) ∧
    (∃ i1 i2, i1 < i2 ∧
      (∃ m1, alookup wfT2 "a" = some m1 ∧
        alookup m1.inputs seed_key
          = some (.num (make_random_seed (genT.stream i1)))) ∧
      (∃ m2, alookup wfT2 "b" = some m2 ∧
        alookup m2.inputs seed_key
          = some (.num (make_random_seed (genT.stream i2))))) := by
  refine ⟨C7_seeds.1 12345, ?_, ?_⟩
  · exact C7_seeds.2.1 wfS "3" genS ⟨[(seed_key, .num 0), (noise_seed_key, .num 0)]⟩
      wfS2 genS2 rfl rfl rfl rfl
  · exact C7_seeds.2.2 [] [] [] "a" "b" wfT wfT2 genT genT2
      ⟨[(seed_key, .num 0)]⟩ ⟨[(seed_key, .num 0)]⟩ rfl
      (by simp) (by simp) (by simp) (by decide)
      (by simp) (by simp) (by simp)
      rfl rfl rfl rfl

/-! ### Claims about the Parameter Injector and the shared template -/

theorem injectPrompts_text (p : String) :
    ∀ (nids : List String) (wf wf2 : Workflow),
    injectPrompts wf nids p = .ok wf2 →
    ∀ nid, ((∃ node, alookup wf nid = some node ∧
              alookup node.inputs text_key = some (.str p)) ∨ nid ∈ nids) →
    ∃ node, alookup wf2 nid = some node ∧
      alookup node.inputs text_key = some (.str p) := by
  intro nids
  induction nids with
  | nil =>
    intro wf wf2 h nid hmem
    simp only [injectPrompts, Except.ok.injEq] at h
    subst h
    cases hmem with
    | inl hx => exact hx
    | inr hx => simp at hx
  | cons nid2 rest ih =>
    intro wf wf2 h nid hmem
    unfold injectPrompts at h
    cases hset : setPromptNode wf nid2 p with
    | error e => rw [hset] at h; simp at h
    | ok wfm =>
      rw [hset] at h
      apply ih wfm wf2 h
      unfold setPromptNode at hset
      cases hl : alookup wf nid2 with
      | none => rw [hl] at hset; simp at hset
      | some node0 =>
        rw [hl] at hset
        simp only [Except.ok.injEq] at hset
        subst hset
        cases hmem with
        | inl hx =>
          obtain ⟨node, hn1, hn2⟩ := hx
          by_cases hnn : nid2 = nid
          · subst hnn
            exact Or.inl ⟨_, alookup_aset_self _ _ _, alookup_aset_self _ _ _⟩
          · refine Or.inl ⟨node, ?_, hn2⟩
            rw [alookup_aset_ne _ _ _ _ hnn]
            exact hn1
        | inr hx =>
          rcases List.mem_cons.mp hx with heq | hrest
          · subst heq
            exact Or.inl ⟨_, alookup_aset_self _ _ _, alookup_aset_self _ _ _⟩
          · exact Or.inr hrest

/-- C1 amended: the Parameter Injector performs no deep copy — the graph
it writes into IS the shared `comfyui_workflow` template (line 134 binds a
reference) — so after every successful invocation the written values are
observable from the shared template: each node listed in `prompt_nodes`
holds the invocation's prompt text in the shared post-invocation state,
which is also the starting graph of the next invocation. -/
theorem C1_injection_mutates_shared :
    ∀ (cw : ComfyuiWorkflow) (p ratioAlias : String) (g : SeedGen)
      (cw2 : ComfyuiWorkflow) (g2 : SeedGen),
    bindParameters cw p ratioAlias g = .ok (cw2, g2) →
    ∀ nid ∈ cw.config.prompt_nodes, ∃ node,
      alookup cw2.workflow nid = some node ∧
      alookup node.inputs text_key = some (.str p) := by
  intro cw p ratioAlias g cw2 g2 h nid hmem
  unfold bindParameters at h
  cases h1 : getImageSize cw.config.aspect_ratios ratioAlias with
  | error e => rw [h1] at h; simp at h
  | ok wh =>
    obtain ⟨w, hgt⟩ := wh
    rw [h1] at h
    dsimp only at h
    cases h2 : injectSizes cw.workflow cw.config.image_size_nodes w hgt with
    | error e => rw [h2] at h; simp at h
    | ok ps =>
      rw [h2] at h
      dsimp only at h
      cases h3 : injectSeeds ps cw.config.seed_nodes g with
      | error e => rw [h3] at h; simp at h
      | ok pg =>
        obtain ⟨ps2, g3⟩ := pg
        rw [h3] at h
        dsimp only at h
        cases h4 : injectPrompts ps2 cw.config.prompt_nodes p with
        | error e => rw [h4] at h; simp at h
        | ok ps3 =>
          rw [h4] at h
          dsimp only at h
          simp only [Except.ok.injEq, Prod.mk.injEq] at h
          obtain ⟨hcw2, hg2⟩ := h
          have := injectPrompts_text p cw.config.prompt_nodes ps2 ps3 h4 nid (Or.inr hmem)
          rw [← hcw2]
          exact this

def cfgA : Config := ⟨default_aspect_ratios, "1", [], [], ["1"]⟩
def cwA : ComfyuiWorkflow := ⟨[("1", ⟨[(text_key, .str "old")]⟩)], cfgA⟩
def genA : SeedGen := ⟨fun _ => 0, 0⟩

/-- C1 counterexample: a concrete invocation on the loaded shared state
`cwA` (whose template's prompt node holds the text `old`).  After the
binding phase the shared `comfyui_workflow` dictionary — returned by
`bindParameters`, which writes through the reference taken at line 134 —
holds the graph with text `NEW`, which differs from the template as
loaded: the shared WorkflowTemplate IS mutated after load, and the
invocation's written prompt value is observable from it. -/
theorem C1_no_deepcopy_counterexample :
    bindParameters cwA "NEW" "square" genA
      = .ok (⟨[("1", ⟨[(text_key, .str "NEW")]⟩)], cfgA⟩, genA) ∧
    [("1", (⟨[(text_key, JVal.str "NEW")]⟩ : NodeDef))] ≠ cwA.workflow :=
  ⟨rfl, by decide⟩

theorem C1_injection_witness :
    ∃ node,
      alookup (⟨[("1", ⟨[(text_key, JVal.str "NEW")]⟩)], cfgA⟩ :
        ComfyuiWorkflow).workflow "1" = some node ∧
      alookup node.inputs text_key = some (.str "NEW") :=
  C1_injection_mutates_shared cwA "NEW" "square" genA
    ⟨[("1", ⟨[(text_key, .str "NEW")]⟩)], cfgA⟩ genA rfl "1" (by decide)

/-! ### Claims about startup validation -/

def wfB : Workflow := [("1", ⟨[(width_key, .num 0), (height_key, .num 0)]⟩)]
def rawB : RawConfig := ⟨none, "1", ["99"], [], []⟩
def genB : SeedGen := ⟨fun _ => 0, 0⟩

/-- C2 counterexample: the startup load completes with a binding config
whose `image_size_nodes` lists node `99`, absent from the workflow graph —
no startup failure occurs — and the absence is first detected while
handling a generation request, as a `KeyError` raised by the Parameter
Injector, which the adapter converts to a textual error. -/
theorem C2_validation_counterexample :
    (startupLoad wfB rawB).config.image_size_nodes = ["99"] ∧
    amem wfB "99" = false ∧
    bindParameters (startupLoad wfB rawB) "p" "square" genB
      = .error (.keyError "99") ∧
    handle_call_tool "image_generate" (.error (.keyError "99")) (.ok ())
      = [.text ("Error generating image: " ++ "99")] :=
  ⟨rfl, by decide, rfl, rfl⟩

/-- C2 amended: startup loading performs no validation of the role lists —
it returns the parsed graph and config unchanged (plus aspect-ratio
defaulting) for every input — so a role-listed identifier missing from the
WorkflowTemplate does not fail startup; it first surfaces during a
generation request, as a `KeyError` naming the identifier, which the Tool
Invocation Adapter converts to a textual error result. -/
theorem C2_validation_amended :
    ∀ (wf : Workflow) (raw : RawConfig) (nid : String) (rest : List String)
      (w h : Nat) (sc : Except PyError Unit),
    ((startupLoad wf raw).workflow = wf ∧
     (startupLoad wf raw).config.image_size_nodes = raw.image_size_nodes ∧
     (startupLoad wf raw).config.seed_nodes = raw.seed_nodes ∧
     (startupLoad wf raw).config.prompt_nodes = raw.prompt_nodes) ∧
    (amem wf nid = false →
      injectSizes wf (nid :: rest) w h = .error (.keyError nid)) ∧
    handle_call_tool "image_generate" (.error (.keyError nid)) sc
      = [.text ("Error generating image: " ++ nid)] := by
  intro wf raw nid rest w h sc
  refine ⟨⟨rfl, rfl, rfl, rfl⟩, ?_, by simp [handle_call_tool, pyErrStr]⟩
  intro hmem
  have hn := alookup_of_amem_false wf nid hmem
  simp [injectSizes, setSizeNode, hn]

theorem C2_validation_witness :
    amem wfB "99" = false ∧
    injectSizes wfB ["99"] 1024 1024 = .error (.keyError "99") :=
  ⟨by decide,
   (C2_validation_amended wfB rawB "99" [] 1024 1024 (.ok ())).2.1 (by decide)⟩

end ComfyUI
